import Mathlib

/-!
# Verification of the cause-list parser (`src/scripts/cause_list_parser.py`)

Shallow embedding of the parsing pipeline of `cause_list_parser.py` over
`List Char` (Python `str`).  Python's regular expressions are embedded as
executable character-list matchers.  Each regex used by the script is
deterministic once compiled: every greedy quantifier in the patterns is a
character class that is disjoint from the construct that follows it (digits
before whitespace, whitespace before letters, non-space before whitespace,
digits before a literal `/`), so backtracking can never change the outcome
and the greedy run is simply the maximal run of the class.  The one pattern
where backtracking is observable (the judge pattern, whose lazy group class
overlaps `\s+`) is embedded with its backtracking search spelled out.

Strings are modelled as `List Char`; `re.IGNORECASE` is modelled by mapping
both sides through `Char.toUpper` (all patterns in the script are ASCII).
-/

/-- Python `str` is modelled as a list of characters. -/
abbrev Str := List Char

/-- Python's `\d` character class (ASCII digits, which is what the script's
inputs contain). -/
def isDigitChar (c : Char) : Bool := 48 ≤ c.toNat && c.toNat ≤ 57

/-- Python's `\s` character class: space, tab, newline, carriage return,
vertical tab, form feed. -/
def isSpaceChar (c : Char) : Bool :=
  c == ' ' || c == '\t' || c == '\n' || c == '\r' || c == '\x0b' || c == '\x0c'

/-- Python `int(...)` on a non-empty digit string. -/
def natOfDigits (l : Str) : Nat := l.foldl (fun n c => n * 10 + (c.toNat - 48)) 0

/-- Python `str.strip()`: remove leading and trailing whitespace. -/
def stripL (l : Str) : Str :=
  ((l.dropWhile isSpaceChar).reverse.dropWhile isSpaceChar).reverse

/-- Case-insensitive anchored match: does the (pre-uppercased) pattern `pat`
match at the start of `s`?  Models a regex literal under `re.IGNORECASE`. -/
def matchCIAt (pat : Str) (s : Str) : Bool :=
  ((s.take pat.length).map Char.toUpper) == pat

/-- Case-sensitive substring test, modelling Python's `pat in s`. -/
def containsSub (pat : Str) : Str → Bool
  | [] => pat == ([] : Str)
  | c :: tail => pat.isPrefixOf (c :: tail) || containsSub pat tail

/-- Case-insensitive substring test (`re.search` of a literal alternation
branch under `re.IGNORECASE`); `pat` is given uppercased. -/
def containsCI (pat : Str) (s : Str) : Bool :=
  containsSub pat (s.map Char.toUpper)

/-- Leftmost case-insensitive occurrence of `pat` in `s` (start index),
modelling `re.search` of a literal under `re.IGNORECASE`. -/
def findCI (pat : Str) : Str → Option Nat
  | [] => none
  | c :: tail =>
    if matchCIAt pat (c :: tail) then some 0
    else (findCI pat tail).map (fun n => n + 1)

/-- Length of the leading whitespace run (a greedy `\s*`). -/
def wsLen (l : Str) : Nat := (l.takeWhile isSpaceChar).length

/-- Python `'\n'.split` / `str.split('\n')`. -/
def splitNl : Str → List Str
  | [] => [[]]
  | c :: rest =>
    if c == '\n' then [] :: splitNl rest
    else
      match splitNl rest with
      | h :: t => (c :: h) :: t
      | [] => [[c]]

/-- Python `str.isupper()` for ASCII text: at least one letter, and no
lowercase letter. -/
def pyIsUpper (l : Str) : Bool :=
  l.any (fun c => c.isAlpha) && l.all (fun c => !c.isLower)

/-! ## `parse_case_line` (cause_list_parser.py lines 155-197)

The case pattern is
`(\d+)\s+((?:WP|WA|CCC|MFA|COMAP|RP|PIL|CRL\.RP|MV|DM|Cr\.PC|BNSS)[^\s]*\s+\d+/\d{4})`
under `re.IGNORECASE`, applied with `re.search`.  The greedy pieces are all
followed by constructs disjoint from their class, so a match attempt at a
position is deterministic: digits, whitespace, an alternation branch that
must be a case-insensitive prefix of the following non-space token (after
any branch the greedy `[^\s]*` always extends to the next whitespace, so
the choice of branch does not affect the match), whitespace, digits, `/`,
and exactly four digits. -/

/-- The alternation branches of the case pattern, uppercased
(`Cr\.PC` matches case-insensitively, hence `CR.PC` here). -/
def caseTypeAlts : List Str :=
  [('W' :: ['P']), ('W' :: ['A']), ('C' :: ['C', 'C']), ('M' :: ['F', 'A']),
   ('C' :: ['O', 'M', 'A', 'P']), ('R' :: ['P']), ('P' :: ['I', 'L']),
   ('C' :: ['R', 'L', '.', 'R', 'P']), ('M' :: ['V']), ('D' :: ['M']),
   ('C' :: ['R', '.', 'P', 'C']), ('B' :: ['N', 'S', 'S'])]

/-- One attempt of the case pattern at the start of `s`.  On success returns
`(group 1 digits, group 2 text, rest of the string after the match)`. -/
def matchCaseAt (s : Str) : Option (Str × Str × Str) :=
  let d1 := s.takeWhile isDigitChar
  let s1 := s.dropWhile isDigitChar
  if d1 == ([] : Str) then none else
  let w1 := s1.takeWhile isSpaceChar
  let s2 := s1.dropWhile isSpaceChar
  if w1 == ([] : Str) then none else
  if caseTypeAlts.any (fun a => matchCIAt a s2) then
    let tok := s2.takeWhile (fun c => !isSpaceChar c)
    let s3 := s2.dropWhile (fun c => !isSpaceChar c)
    let w2 := s3.takeWhile isSpaceChar
    let s4 := s3.dropWhile isSpaceChar
    if w2 == ([] : Str) then none else
    let d2 := s4.takeWhile isDigitChar
    let s5 := s4.dropWhile isDigitChar
    if d2 == ([] : Str) then none else
    match s5 with
    | '/' :: s6 =>
      let yr := s6.take 4
      if yr.length == 4 && yr.all isDigitChar then
        some (d1, tok ++ w2 ++ d2 ++ '/' :: yr, s6.drop 4)
      else none
    | _ => none
  else none

/-- `re.search` of the case pattern: try every position left to right. -/
def searchCase : Str → Option (Str × Str × Str)
  | [] => none
  | c :: tail =>
    match matchCaseAt (c :: tail) with
    | some r => some r
    | none => searchCase tail

/-- First whitespace-separated token, modelling `s.split()[0]` (in
`parse_case_line` the argument always begins with an alternation branch, so
Python's `split()` there is never empty). -/
def firstToken (l : Str) : Str :=
  (l.dropWhile isSpaceChar).takeWhile (fun c => !isSpaceChar c)

/-- The literal `PET:` of the pattern `PET:\s*`. -/
def petLabel : Str := ['P', 'E', 'T', ':']

/-- The literal `RES:` of the pattern `RES:\s*`. -/
def resLabel : Str := ['R', 'E', 'S', ':']

/-- Column split of the text after the case number (lines 169-189):
`PET:\s*` and `RES:\s*` are searched case-insensitively; the match end of
each label is its start plus 4 plus the greedy whitespace run.  Returns
`(petitioner_text, respondent_text)`. -/
def petResSplit (remaining : Str) : Str × Str :=
  match findCI petLabel remaining, findCI resLabel remaining with
  | some p, some r =>
    let pEnd := p + 4 + wsLen (remaining.drop (p + 4))
    let rEnd := r + 4 + wsLen (remaining.drop (r + 4))
    (stripL ((remaining.drop pEnd).take (r - pEnd)), stripL (remaining.drop rEnd))
  | some p, none =>
    (stripL (remaining.drop (p + 4 + wsLen (remaining.drop (p + 4)))), [])
  | none, some r =>
    ([], stripL (remaining.drop (r + 4 + wsLen (remaining.drop (r + 4)))))
  | none, none => ([], [])

/-- Result of `parse_case_line`. -/
structure CaseLineParse where
  sl_no : Nat
  case_number : Str
  case_type : Str
  petitioner_text : Str
  respondent_text : Str
deriving DecidableEq, Repr

/-- `parse_case_line(line)` (lines 155-197): search the case pattern; on
failure return `None`; on success take `sl_no = int(group 1)`,
`case_number = group 2 stripped`, `case_type = case_number.split()[0].upper()`,
and split the rest of the line into the PET and RES columns. -/
def parse_case_line (line : Str) : Option CaseLineParse :=
  match searchCase line with
  | none => none
  | some (d1, g2, rest) =>
    some { sl_no := natOfDigits d1
           case_number := stripL g2
           case_type := (firstToken (stripL g2)).map Char.toUpper
           petitioner_text := (petResSplit (stripL rest)).1
           respondent_text := (petResSplit (stripL rest)).2 }

/-! ## `split_by_court_halls` (lines 70-103)

Hall pattern `COURT HALL NO\s*:?\s*(\d+)` under `re.IGNORECASE` via
`re.finditer` (leftmost, non-overlapping, resuming after each match end).
The optional `:?` is deterministic: if a `:` is present it must be taken,
because otherwise `\s*` matches nothing at the `:` and `\d+` fails there.
The section end pattern `-+END-+-` (searched with `re.IGNORECASE`) matches
one or more dashes, `END`, then at least two dashes (greedy `-+` plus one
literal `-`), ending at the end of the trailing dash run. -/

/-- The literal `COURT HALL NO`, uppercased. -/
def hallLit : Str :=
  ['C', 'O', 'U', 'R', 'T', ' ', 'H', 'A', 'L', 'L', ' ', 'N', 'O']

/-- One attempt of the hall pattern at the start of `s`: on success returns
`(int of the captured digits, length of the whole match)`. -/
def matchHallAt (s : Str) : Option (Nat × Nat) :=
  if matchCIAt hallLit s then
    let r1 := s.drop hallLit.length
    let w1 := r1.takeWhile isSpaceChar
    let r2 := r1.dropWhile isSpaceChar
    let colonLen := match r2 with
      | ':' :: _ => 1
      | _ => 0
    let r3 := r2.drop colonLen
    let w2 := r3.takeWhile isSpaceChar
    let r4 := r3.dropWhile isSpaceChar
    let d := r4.takeWhile isDigitChar
    if d == ([] : Str) then none
    else some (natOfDigits d, hallLit.length + w1.length + colonLen + w2.length + d.length)
  else none

/-- `re.finditer` of the hall pattern: scan left to right, emitting
`(match start, hall number, match end)` and resuming after each match.
The fuel is the length of the remaining text; every step consumes at least
one character, so fuel is never exhausted. -/
def hallFindAux : Nat → Str → Nat → List (Nat × Nat × Nat)
  | 0, _, _ => []
  | _ + 1, [], _ => []
  | fuel + 1, c :: tail, pos =>
    match matchHallAt (c :: tail) with
    | some (n, len) => (pos, n, pos + len) :: hallFindAux fuel ((c :: tail).drop len) (pos + len)
    | none => hallFindAux fuel tail (pos + 1)

/-- One attempt of the END pattern `-+END-+-` at the start of `s`: on
success returns the length of the whole match. -/
def matchEndMarkAt (s : Str) : Option Nat :=
  match s with
  | '-' :: _ =>
    let r1 := s.takeWhile (fun c => c == '-')
    let s1 := s.dropWhile (fun c => c == '-')
    if matchCIAt ['E', 'N', 'D'] s1 then
      let s2 := s1.drop 3
      let r2 := s2.takeWhile (fun c => c == '-')
      if 2 ≤ r2.length then some (r1.length + 3 + r2.length) else none
    else none
  | _ => none

/-- `re.search` of the END pattern: leftmost match end offset in `s`. -/
def endMarkSearch : Str → Option Nat
  | [] => none
  | c :: tail =>
    match matchEndMarkAt (c :: tail) with
    | some len => some len
    | none => (endMarkSearch tail).map (fun n => n + 1)

/-- One element of the list built by `split_by_court_halls`. -/
structure HallSection where
  hall_number : Nat
  text : Str
deriving DecidableEq, Repr

/-- Section assembly of `split_by_court_halls` (lines 80-98): each hall
starts at its match start and ends after the first END marker found from
there, or at the next hall's match start, or at the end of the text. -/
def buildHalls (text : Str) : List (Nat × Nat × Nat) → List HallSection
  | [] => []
  | (start, n, _) :: rest =>
    let endPos := match endMarkSearch (text.drop start) with
      | some off => start + off
      | none => match rest with
        | (s2, _, _) :: _ => s2
        | [] => text.length
    { hall_number := n, text := (text.drop start).take (endPos - start) } ::
      buildHalls text rest

/-- `split_by_court_halls(text)` (lines 70-103). -/
def split_by_court_halls (text : Str) : List HallSection :=
  buildHalls text (hallFindAux text.length text 0)

/-! ## `extract_cause_list_number` (lines 127-130)

Pattern `Cause List No\.\s*(\d+)` under `re.IGNORECASE` with `re.search`;
the default is `1` when there is no match. -/

/-- The literal `Cause List No.`, uppercased. -/
def causeListLit : Str :=
  ['C', 'A', 'U', 'S', 'E', ' ', 'L', 'I', 'S', 'T', ' ', 'N', 'O', '.']

/-- One attempt of the cause-list-number pattern at the start of `s`. -/
def matchCauseListAt (s : Str) : Option Nat :=
  if matchCIAt causeListLit s then
    let r := (s.drop causeListLit.length).dropWhile isSpaceChar
    let d := r.takeWhile isDigitChar
    if d == ([] : Str) then none else some (natOfDigits d)
  else none

/-- `re.search` of the cause-list-number pattern. -/
def findCauseListNo : Str → Option Nat
  | [] => none
  | c :: tail =>
    match matchCauseListAt (c :: tail) with
    | some n => some n
    | none => findCauseListNo tail

/-- `extract_cause_list_number(hall_text)` (lines 127-130). -/
def extract_cause_list_number (hall_text : Str) : Nat :=
  (findCauseListNo hall_text).getD 1

/-! ## `extract_cases` (lines 234-323) -/

/-- `re.match(r'^[-_=]{3,}', s)`: the first three characters exist and are
dashes, underscores or equals signs. -/
def isUnderline (s : Str) : Bool :=
  (s.take 3).length == 3 && (s.take 3).all (fun c => c == '-' || c == '_' || c == '=')

/-- The stage-keyword alternation
`(ORDERS|HEARING|ADMISSION|ARGUMENTS|FINAL|INTERLOCUTORY|APPLN|APPLICATION|MENTION)`
searched case-insensitively: a substring test for any branch. -/
def stageKeywords : List Str :=
  ["ORDERS".toList, "HEARING".toList, "ADMISSION".toList, "ARGUMENTS".toList,
   "FINAL".toList, "INTERLOCUTORY".toList, "APPLN".toList,
   "APPLICATION".toList, "MENTION".toList]

/-- `re.search` of the stage-keyword alternation in `line`. -/
def hasStageKeyword (line : Str) : Bool :=
  stageKeywords.any (fun k => containsCI k line)

/-- The continuation-stop alternation of line 283,
`^\d+\s+(?:WP|WA|CCC|MFA|COMAP|RP|PIL|CRL|MV)` under `re.IGNORECASE`
(note: a different branch list than the case pattern). -/
def anchorAlts : List Str :=
  ["WP".toList, "WA".toList, "CCC".toList, "MFA".toList, "COMAP".toList,
   "RP".toList, "PIL".toList, "CRL".toList, "MV".toList]

/-- `re.match` of the continuation-stop pattern: digits, whitespace, then
one of the branches as a case-insensitive prefix. -/
def isCaseAnchor (s : Str) : Bool :=
  let d := s.takeWhile isDigitChar
  let r := s.dropWhile isDigitChar
  let w := r.takeWhile isSpaceChar
  let r2 := r.dropWhile isSpaceChar
  !(d == ([] : Str)) && !(w == ([] : Str)) && anchorAlts.any (fun a => matchCIAt a r2)

/-- The two break conditions of the continuation loop (lines 283-288) at
line index `j`: the stripped line is a new case anchor, or the next line
(stripped) is an underline. -/
def stopCond (lines : List Str) (j : Nat) : Bool :=
  isCaseAnchor (stripL (lines.getD j [])) ||
    (decide (j + 1 < lines.length) && isUnderline (stripL (lines.getD (j + 1) [])))

/-- Body of the continuation loop `for j in range(i + 1, min(i + 10, len(lines)))`
(lines 279-298): break on `stopCond`, skip empty lines and lines containing
`RES:` or `PET:` (case-sensitive `in`), otherwise collect the stripped line.
The fuel is the number of loop iterations, `min (i + 10) lines.length - (i + 1)`. -/
def collectContAux (lines : List Str) : Nat → Nat → List Str
  | _, 0 => []
  | j, fuel + 1 =>
    if stopCond lines j then []
    else if stripL (lines.getD j []) == ([] : Str) then
      collectContAux lines (j + 1) fuel
    else if containsSub resLabel (stripL (lines.getD j [])) ||
        containsSub petLabel (stripL (lines.getD j [])) then
      collectContAux lines (j + 1) fuel
    else stripL (lines.getD j []) :: collectContAux lines (j + 1) fuel

/-- The continuation lines collected for the case line at index `i`. -/
def collectCont (lines : List Str) (i : Nat) : List Str :=
  collectContAux lines (i + 1) (min (i + 10) lines.length - (i + 1))

/-- `continuation_text += '\n' + next_line` folded over the collected lines
(lines 297-298); the same text is appended to both columns. -/
def joinCont (init : Str) (ls : List Str) : Str :=
  ls.foldl (fun a l => a ++ '\n' :: l) init

/-- First stripped, non-empty, all-uppercase line of length above 3 in the
continuation text (lines 300-312, for petitioner and respondent names). -/
def firstCapsLine (t : Str) : Option Str :=
  (((splitNl t).map stripL).filter (fun l => !(l == ([] : Str)))).find?
    (fun l => pyIsUpper l && decide (3 < l.length))

/-! ## `extract_advocate_from_text` (lines 200-231) -/

/-- The keyword alternation of line 219, uppercased branches. -/
def advKeywords : List Str :=
  ["AND OTHERS".toList, "OTHERS".toList, "R1".toList, "R2".toList,
   "R3".toList, "R4".toList, "R5".toList, "NOT FILED".toList,
   "SD".toList, "VK".toList]

/-- `re.sub(r'[,;:]$', '', s)`: remove one trailing `,`, `;` or `:`. -/
def stripTrailingPunct (l : Str) : Str :=
  match l.reverse with
  | c :: rest => if c == ',' || c == ';' || c == ':' then rest.reverse else l
  | [] => l

/-- The line loop of `extract_advocate_from_text`: skip all-uppercase lines
and lines containing a keyword; otherwise clean the line and return it when
it is non-empty with length above 2. -/
def firstAdvocate : List Str → Option Str
  | [] => none
  | l :: rest =>
    if pyIsUpper l then firstAdvocate rest
    else if advKeywords.any (fun k => containsCI k l) then firstAdvocate rest
    else
      let adv := stripTrailingPunct l
      if !(adv == ([] : Str)) && decide (2 < adv.length) then some adv
      else firstAdvocate rest

/-- `extract_advocate_from_text(text)` (lines 200-231). -/
def extract_advocate_from_text (t : Str) : Option Str :=
  if t == ([] : Str) then none
  else firstAdvocate (((splitNl t).map stripL).filter (fun l => !(l == ([] : Str))))

/-- One element of the list built by `extract_cases` (the dict of
lines 261-272 after the look-ahead enrichment). -/
structure ParsedCase where
  sl_no : Nat
  case_number : Str
  case_type : Str
  case_stage : Option Str
  petitioner_text : Str
  respondent_text : Str
  petitioner_advocate : Option Str
  respondent_advocate : Option Str
  petitioner_name : Option Str
  respondent_name : Option Str
deriving DecidableEq, Repr

/-- The record assembly for one parsed case line (lines 261-316): the dict
fields of line 261, enriched by the continuation look-ahead — the collected
continuation lines are appended to both column texts (lines 274-298) and
the names and advocates are extracted from the joined texts. -/
def mkParsedCase (lines : List Str) (stage : Option Str) (i : Nat)
    (p : CaseLineParse) : ParsedCase :=
  { sl_no := p.sl_no
    case_number := p.case_number
    case_type := p.case_type
    case_stage := stage
    petitioner_text := p.petitioner_text
    respondent_text := p.respondent_text
    petitioner_advocate :=
      extract_advocate_from_text (joinCont p.petitioner_text (collectCont lines i))
    respondent_advocate :=
      extract_advocate_from_text (joinCont p.respondent_text (collectCont lines i))
    petitioner_name := firstCapsLine (joinCont p.petitioner_text (collectCont lines i))
    respondent_name := firstCapsLine (joinCont p.respondent_text (collectCont lines i)) }

/-- The indexed line loop of `extract_cases` (lines 242-320): `stage` is the
mutable `current_stage`, `i` the loop index; the fuel is the number of
remaining iterations (`lines.length` at the start, one per line). -/
def extract_cases_go (lines : List Str) : Option Str → Nat → Nat → List ParsedCase
  | _, _, 0 => []
  | stage, i, fuel + 1 =>
    if i < lines.length then
      if stripL (lines.getD i []) == ([] : Str) then
        extract_cases_go lines stage (i + 1) fuel
      else if decide (i + 1 < lines.length) &&
          isUnderline (stripL (lines.getD (i + 1) [])) &&
          hasStageKeyword (stripL (lines.getD i [])) then
        extract_cases_go lines (some (stripL (lines.getD i []))) (i + 1) fuel
      else
        match parse_case_line (lines.getD i []) with
        | none => extract_cases_go lines stage (i + 1) fuel
        | some p => mkParsedCase lines stage i p ::
            extract_cases_go lines stage (i + 1) fuel
    else []

/-- `extract_cases(hall_text)` (lines 234-323). -/
def extract_cases (hall_text : Str) : List ParsedCase :=
  let lines := splitNl hall_text
  extract_cases_go lines none 0 lines.length

/-! ## `extract_judges` (lines 106-124)

Pattern `THE HON\'BLE JUSTICE\s+([A-Z\s\.]+?)(?=\n)` under `re.IGNORECASE`
with `re.findall`.  Here the lazy group class `[A-Z\s\.]` (case-insensitive,
so also `a-z`) overlaps `\s`, so backtracking is observable: the engine
tries the greedy `\s+` at its maximal length first, and within each length
grows the lazy group one character at a time until the lookahead `(?=\n)`
succeeds; on failure it shortens `\s+` and retries.  The embedding spells
this search out. -/

/-- The character class `[A-Z\s\.]` under `re.IGNORECASE`. -/
def judgeClassChar (c : Char) : Bool :=
  (65 ≤ c.toNat && c.toNat ≤ 90) || (97 ≤ c.toNat && c.toNat ≤ 122) ||
    isSpaceChar c || c == '.'

/-- The literal `THE HON'BLE JUSTICE`, uppercased (the apostrophe is
character 39). -/
def judgeLit : Str :=
  "THE HON".toList ++ [Char.ofNat 39] ++ "BLE JUSTICE".toList

/-- Lazy scan of `([A-Z\s\.]+?)(?=\n)` at the start of `t`: grow the group
one class character at a time and stop as soon as the next character is a
newline.  Returns `(group, rest of the text at the lookahead)`. -/
def lazyJudgeGroup : Str → Option (Str × Str)
  | [] => none
  | c :: rest =>
    if judgeClassChar c then
      match rest with
      | '\n' :: _ => some ([c], rest)
      | _ => (lazyJudgeGroup rest).map (fun g => (c :: g.1, g.2))
    else none

/-- Backtracking over the length of the greedy `\s+`: try `j` whitespace
characters for `\s+` (group starting after them), from the maximal run
length downward to 1. -/
def judgeBacktrack (afterLit : Str) : Nat → Option (Str × Str)
  | 0 => none
  | j + 1 =>
    match lazyJudgeGroup (afterLit.drop (j + 1)) with
    | some r => some r
    | none => judgeBacktrack afterLit j

/-- One attempt of the judge pattern at the start of `s`: on success
returns `(captured group, rest of the text after the match)`. -/
def judgeMatchAt (s : Str) : Option (Str × Str) :=
  if matchCIAt judgeLit s then
    let afterLit := s.drop judgeLit.length
    judgeBacktrack afterLit (afterLit.takeWhile isSpaceChar).length
  else none

/-- `re.findall` of the judge pattern: scan left to right, resuming after
each match end (the lookahead is zero-width, so the match ends at the end
of the group).  Fuel is the text length; every step advances. -/
def judgeFindAux : Nat → Str → List Str
  | 0, _ => []
  | _ + 1, [] => []
  | fuel + 1, c :: tail =>
    match judgeMatchAt (c :: tail) with
    | some (g, rest) => g :: judgeFindAux fuel rest
    | none => judgeFindAux fuel tail

/-- `re.sub(r'\s+', ' ', s)`: collapse every whitespace run to one space.
The flag records whether the previous character was whitespace. -/
def collapseWsAux : Bool → Str → Str
  | _, [] => []
  | prevWs, c :: rest =>
    if isSpaceChar c then
      if prevWs then collapseWsAux true rest else ' ' :: collapseWsAux true rest
    else c :: collapseWsAux false rest

/-- Whitespace collapsing of line 115. -/
def collapseWs (s : Str) : Str := collapseWsAux false s

/-- Python `str.replace(pat, rep)`: replace every non-overlapping
(case-sensitive) occurrence, scanning left to right.  Fuel is the text
length; every step advances. -/
def replaceAllAux (pat rep : Str) : Nat → Str → Str
  | 0, s => s
  | _ + 1, [] => []
  | fuel + 1, c :: tail =>
    if pat.isPrefixOf (c :: tail) && !(pat == ([] : Str)) then
      rep ++ replaceAllAux pat rep fuel ((c :: tail).drop pat.length)
    else c :: replaceAllAux pat rep fuel tail

/-- Python `str.replace`. -/
def replaceAll (pat rep s : Str) : Str := replaceAllAux pat rep s.length s

/-- The per-match cleanup of lines 113-119: strip, collapse whitespace,
retitle `CHIEF JUSTICE`, strip, drop `JUSTICE`, strip; keep if non-empty. -/
def cleanJudgeName (m : Str) : Str :=
  let n1 := collapseWs (stripL m)
  let n2 := stripL (replaceAll ("CHIEF JUSTICE".toList) ("Chief Justice".toList) n1)
  stripL (replaceAll ("JUSTICE".toList) ([] : Str) n2)

/-- `extract_judges(hall_text)` (lines 106-124): returns
`(primary_judge, co_judge)` with the `"Unknown"` default. -/
def extract_judges (hall_text : Str) : Str × Option Str :=
  let judges := ((judgeFindAux hall_text.length hall_text).map cleanJudgeName).filter
    (fun n => !(n == ([] : Str)))
  (judges.getD 0 ("Unknown".toList),
   if 1 < judges.length then some (judges.getD 1 []) else none)

/-! ## `extract_text_from_pdf`, `parse_cause_list_pdf` (lines 52-67, 326-380)

A PDF is modelled as its per-page extracted text, or as unreadable: the
`except` branch of `extract_text_from_pdf` turns any reader error into the
empty string.  `datetime.now().strftime('%Y-%m-%d')` of line 336 is the one
ambient input of the parse; it is modelled as the explicit `date_str`
argument, so that a fixed clock fixes the whole computation. -/

/-- A PDF file: either a readable sequence of page texts, or a file on
which `PyPDF2` raises. -/
inductive PdfFile where
  | pages (ps : List Str)
  | corrupt
deriving DecidableEq

/-- `extract_text_from_pdf(pdf_file)` (lines 52-67): concatenate each page
text followed by a newline; on a reader error return the empty string. -/
def extract_text_from_pdf : PdfFile → Str
  | .pages ps => ps.foldl (fun acc p => acc ++ p ++ ['\n']) []
  | .corrupt => []

/-- One output record of `parse_cause_list_pdf` (the dict of lines 360-375). -/
structure CaseRecord where
  date : Str
  court_hall : Nat
  list_number : Nat
  sl_no : Nat
  case_number : Str
  case_type : Str
  case_stage : Option Str
  judge_name : Str
  co_judge_name : Option Str
  petitioner_name : Option Str
  petitioner_advocate : Option Str
  respondent_name : Option Str
  respondent_advocate : Option Str
  all_advocates : List Str
deriving DecidableEq, Repr

/-- The per-hall record assembly of lines 338-377, applied to the full
text: split into hall sections, and for each section extract judges, the
cause-list number and the cases, then emit one `CaseRecord` per case with
the section context.  `all_advocates` collects the petitioner advocate then
the respondent advocate when present (lines 353-358). -/
def parse_cause_list_text (full_text : Str) (date_str : Str) : List CaseRecord :=
  (split_by_court_halls full_text).foldl (fun acc hall =>
    let judges := extract_judges hall.text
    let listNo := extract_cause_list_number hall.text
    acc ++ (extract_cases hall.text).map (fun c =>
      { date := date_str
        court_hall := hall.hall_number
        list_number := listNo
        sl_no := c.sl_no
        case_number := c.case_number
        case_type := c.case_type
        case_stage := c.case_stage
        judge_name := judges.1
        co_judge_name := judges.2
        petitioner_name := c.petitioner_name
        petitioner_advocate := c.petitioner_advocate
        respondent_name := c.respondent_name
        respondent_advocate := c.respondent_advocate
        all_advocates := c.petitioner_advocate.toList ++ c.respondent_advocate.toList })) []

/-- `parse_cause_list_pdf(pdf_file)` (lines 326-380): extract the text,
return `[]` when it is empty (`if not full_text`), otherwise build the
records.  `date_str` models the `datetime.now()` call of line 336. -/
def parse_cause_list_pdf (pdf : PdfFile) (date_str : Str) : List CaseRecord :=
  let full_text := extract_text_from_pdf pdf
  if full_text == ([] : Str) then [] else parse_cause_list_text full_text date_str

/-! ## `download_pdf` and `main` (lines 42-49, 434-452) -/

/-- `download_pdf(url)` (lines 42-49): the HTTP worker call is modelled by
its result — `none` when the network call raised (the `except` branch
returns `None`), `some pdf` otherwise. -/
def download_pdf : Option PdfFile → Option PdfFile
  | some p => some p
  | none => none

/-- The observable outcome of `main()` (lines 434-452). -/
inductive MainOutcome where
  | downloadFailed
  | noCases
  | inserted (cases : List CaseRecord)
deriving DecidableEq

/-- `main()` (lines 434-452): abort with an error when the download
returned `None`; otherwise parse and either insert the cases or report
that none were parsed. -/
def main_run (response : Option PdfFile) (today : Str) : MainOutcome :=
  match download_pdf response with
  | none => .downloadFailed
  | some pdf =>
    let cases := parse_cause_list_pdf pdf today
    if cases == ([] : List CaseRecord) then .noCases else .inserted cases

/-! ## GatingDecider (spec §4.6, §8)

No effective-date extraction or gating code exists anywhere under
`src/scripts/`, so the decider is modelled from the specification. -/

/-- A calendar date. -/
structure CalDate where
  year : Nat
  month : Nat
  day : Nat
deriving DecidableEq, Repr

/-- The four gating outcomes of spec §3. -/
inductive GatingDecision where
  | NEW
  | ALREADY_PROCESSED
  | DATE_MISMATCH
  | DATE_UNKNOWN
deriving DecidableEq, Repr

/-- Modelled from the spec: no GatingDecider exists in `src/` (the spec's
§4.6 describes it, with no corresponding code).  Per the spec: "returns
DATE_UNKNOWN if extraction failed; DATE_MISMATCH if extracted date ≠
expected date; ALREADY_PROCESSED if dates match but the external check says
so; otherwise NEW". -/
def gatingDecider (extracted : Option CalDate) (expected : CalDate)
    (alreadyProcessed : Bool) : GatingDecision :=
  match extracted with
  | none => .DATE_UNKNOWN
  | some d =>
    if d ≠ expected then .DATE_MISMATCH
    else if alreadyProcessed then .ALREADY_PROCESSED
    else .NEW

/-! ## Helper lemmas -/

/-- An in-bounds `getD` element is a member of the list. -/
theorem getD_mem_of_lt {l : List Str} {i : Nat} (h : i < l.length) :
    l.getD i [] ∈ l := by
  rw [List.getD_eq_getElem l [] h]
  exact List.getElem_mem h

/-- When every line of the section fails `parse_case_line`, the
`extract_cases` loop emits nothing at any index, stage and fuel. -/
theorem extract_cases_go_nil (lines : List Str)
    (h : ∀ l ∈ lines, parse_case_line l = none) :
    ∀ fuel stage i, extract_cases_go lines stage i fuel = [] := by
  intro fuel
  induction fuel with
  | zero => intro stage i; rfl
  | succ n ih =>
    intro stage i
    unfold extract_cases_go
    by_cases hi : i < lines.length
    · rw [if_pos hi, h (lines.getD i []) (getD_mem_of_lt hi)]
      split
      · exact ih _ _
      · split
        · exact ih _ _
        · exact ih _ _
    · rw [if_neg hi]

/-- Every line the continuation loop collects comes from an index in
`[j, j + fuel)`, is that line stripped, and no break condition held at any
index up to it. -/
theorem collectContAux_window (lines : List Str) :
    ∀ fuel j l, l ∈ collectContAux lines j fuel →
      ∃ k, j ≤ k ∧ k < j + fuel ∧ l = stripL (lines.getD k []) ∧
        ∀ m, j ≤ m → m ≤ k → stopCond lines m = false := by
  intro fuel
  induction fuel with
  | zero => intro j l h; exact absurd h (List.not_mem_nil l)
  | succ n ih =>
    intro j l h
    unfold collectContAux at h
    split at h
    · exact absurd h (List.not_mem_nil l)
    next hstop =>
      have hsf : stopCond lines j = false := by
        cases hb : stopCond lines j
        · rfl
        · exact absurd hb hstop
      split at h
      · obtain ⟨k, hk1, hk2, hk3, hk4⟩ := ih (j + 1) l h
        refine ⟨k, by omega, by omega, hk3, fun m hm1 hm2 => ?_⟩
        rcases Nat.eq_or_lt_of_le hm1 with rfl | hlt
        · exact hsf
        · exact hk4 m hlt hm2
      · split at h
        · obtain ⟨k, hk1, hk2, hk3, hk4⟩ := ih (j + 1) l h
          refine ⟨k, by omega, by omega, hk3, fun m hm1 hm2 => ?_⟩
          rcases Nat.eq_or_lt_of_le hm1 with rfl | hlt
          · exact hsf
          · exact hk4 m hlt hm2
        · rcases List.mem_cons.mp h with rfl | hmem
          · refine ⟨j, Nat.le_refl j, by omega, rfl, fun m hm1 hm2 => ?_⟩
            have hmj : m = j := Nat.le_antisymm hm2 hm1
            rw [hmj]
            exact hsf
          · obtain ⟨k, hk1, hk2, hk3, hk4⟩ := ih (j + 1) l hmem
            refine ⟨k, by omega, by omega, hk3, fun m hm1 hm2 => ?_⟩
            rcases Nat.eq_or_lt_of_le hm1 with rfl | hlt
            · exact hsf
            · exact hk4 m hlt hm2

/-! ## Claim theorems -/

/-- C1: for a case line whose identifier starts with the compound code
`MFA.CROB` (whose prefix `MFA` is also an alternation branch), whatever
follows on the line, `parse_case_line` extracts the full compound token as
the case type and the full identifier as the case number — never the
shorter prefix `MFA`.  The greedy `[^\s]*` after the matched branch always
extends the match to the whole whitespace-delimited token. -/
theorem c1_longest_case_type (tail : Str) :
    (parse_case_line (("7 MFA.CROB 123/2024".toList) ++ tail)).map
      (fun r => (r.case_type, r.case_number)) =
      some (("MFA.CROB".toList), ("MFA.CROB 123/2024".toList)) := rfl

/-- C2 counterexample: on a fragment with no case-number pattern
(`MISC MATTERS 99` — digits are present but no case-type code follows),
`parse_case_line` returns `None` and `extract_cases` emits no record at
all: contrary to the claim, the fragment does not become the detail text
of an emitted record — the line is dropped. -/
theorem c2_no_pattern_counterexample :
    parse_case_line ("MISC MATTERS 99".toList) = none ∧
      extract_cases ("MISC MATTERS 99".toList) = [] := by decide

/-- C2 amended: when no case-number pattern is found, parsing does not
raise and degrades gracefully, but by silently skipping the line: a
section none of whose lines match the case pattern yields no records. -/
theorem c2_unparsed_lines_skipped (text : Str)
    (h : ∀ l ∈ splitNl text, parse_case_line l = none) :
    extract_cases text = [] := by
  unfold extract_cases
  exact extract_cases_go_nil (splitNl text) h _ _ _

/-- Witness for C2 amended at a concrete unparseable section. -/
theorem c2_unparsed_lines_skipped_witness :
    (∀ l ∈ splitNl ("HEARING OF MISC CASES".toList), parse_case_line l = none) ∧
      extract_cases ("HEARING OF MISC CASES".toList) = [] :=
  ⟨by decide, c2_unparsed_lines_skipped _ (by decide)⟩

/-- The C3 input: a hall marker with the alphanumeric identifier `2A`,
followed by a case line. -/
def c3text : Str := "COURT HALL NO : 2A\n9 WP 77/2024 PET: A RES: B\n".toList

/-- The date used in the C3 record-level check. -/
def c3date : Str := "2026-01-23".toList

/-- C3 counterexample: for the marker `COURT HALL NO : 2A` the recorded
court hall is the integer `2` — the hall pattern captures `(\d+)` only, so
the alphanumeric identifier `2A` is never recorded (the `A` is simply cut
off), contrary to the claim. -/
theorem c3_alnum_hall_counterexample :
    (split_by_court_halls c3text).map (fun h => h.hall_number) = [2] ∧
      (parse_cause_list_text c3text c3date).map (fun r => r.court_hall) = [2] := by decide

/-- C3 amended: the hall pattern recognizes `COURT HALL NO`, optional
colon, and a purely numeric identifier; on `COURT HALL NO : 2A` the match
covers exactly the 17 characters up to the digit `2` (hall number 2) and
leaves the `A` outside, whatever text follows. -/
theorem c3_digits_only (rest : Str) :
    matchHallAt (("COURT HALL NO : 2A".toList) ++ rest) = some (2, 17) := rfl

/-- C4 counterexample: for the decimal serial `44.1` the stored serial is
`1` — `re.search` of `(\d+)\s+...` skips `44.`, anchors on the fractional
digit, and `int()` stores it — so the claimed real-number ordering
`44 < 44.1` is violated: the `44.1` line's stored serial `1` orders below
the `44` line's serial `44`. -/
theorem c4_decimal_serial_counterexample :
    (parse_case_line ("44.1 WP 123/2024 PET: A RES: B".toList)).map
        (fun r => r.sl_no) = some 1 ∧
      (parse_case_line ("44 WP 123/2024 PET: A RES: B".toList)).map
        (fun r => r.sl_no) = some 44 ∧
      (1 : Nat) < 44 := by decide

/-- C4 amended: the serial number is stored as an integer (`int(group 1)`);
a serial with a fractional suffix is not represented — for `44.1` the
parser emits the record with serial `1`, the digits after the dot. -/
theorem c4_integer_serial :
    parse_case_line ("44.1 WP 123/2024 PET: A RES: B".toList) =
      some { sl_no := 1, case_number := ("WP 123/2024".toList),
             case_type := ("WP".toList), petitioner_text := ("A".toList),
             respondent_text := ("B".toList) } := by decide

/-- The C5 input: a case line before any hall marker, then a hall marker,
then a second case line. -/
def c5text : Str :=
  "1 WP 100/2024 PET: A RES: B\nCOURT HALL NO : 3\n2 WP 200/2024 PET: C RES: D\n".toList

/-- The date used in the C5 record-level check. -/
def c5date : Str := "2026-01-23".toList

/-- C5 counterexample: the case line appearing before any hall marker
(serial 1) is never emitted at all — `split_by_court_halls` starts the
first section at the first hall marker, so text before it belongs to no
section.  There is no "unknown" sentinel (the hall field is an integer)
and no backfill: the claimed buffered record does not exist. -/
theorem c5_orphan_counterexample :
    (parse_cause_list_text c5text c5date).length = 1 ∧
      (parse_cause_list_text c5text c5date).all (fun r => r.sl_no != 1) = true := by decide

/-- C5 amended: case lines before any hall marker are dropped, not
buffered: the parse of the C5 input yields exactly the one record of the
case after the marker, carrying that marker's hall. -/
theorem c5_orphans_dropped :
    parse_cause_list_text c5text c5date =
      [{ date := c5date, court_hall := 3, list_number := 1, sl_no := 2,
         case_number := ("WP 200/2024".toList), case_type := ("WP".toList),
         case_stage := none, judge_name := ("Unknown".toList),
         co_judge_name := none, petitioner_name := none,
         petitioner_advocate := none, respondent_name := none,
         respondent_advocate := none, all_advocates := [] }] := by decide

/-- C6: the parse is deterministic — `datetime.now()` (modelled as the
explicit `date_str` argument) is its only ambient input, so two
invocations on the same document text and the same "as of" date yield
identical record sequences. -/
theorem c6_parse_deterministic (p1 p2 : PdfFile) (d : Str)
    (h : extract_text_from_pdf p1 = extract_text_from_pdf p2) :
    parse_cause_list_pdf p1 d = parse_cause_list_pdf p2 d := by
  unfold parse_cause_list_pdf
  rw [h]

/-- Witness for C6 at a concrete one-page document. -/
theorem c6_parse_deterministic_witness :
    extract_text_from_pdf (PdfFile.pages [("X".toList)]) =
        extract_text_from_pdf (PdfFile.pages [("X".toList)]) ∧
      parse_cause_list_pdf (PdfFile.pages [("X".toList)]) ([] : Str) =
        parse_cause_list_pdf (PdfFile.pages [("X".toList)]) ([] : Str) :=
  ⟨rfl, c6_parse_deterministic _ _ _ rfl⟩

/-- C7: the gating decider (modelled from the spec — no such code exists
under `src/`) returns DATE_UNKNOWN when extraction failed, DATE_MISMATCH
when the extracted date differs from the expected date, ALREADY_PROCESSED
when the dates match and the external check reports already processed, and
NEW otherwise. -/
theorem c7_gating_cases (e : Option CalDate) (x : CalDate) (b : Bool) :
    (e = none → gatingDecider e x b = GatingDecision.DATE_UNKNOWN) ∧
    (∀ d, e = some d → d ≠ x → gatingDecider e x b = GatingDecision.DATE_MISMATCH) ∧
    (e = some x → b = true → gatingDecider e x b = GatingDecision.ALREADY_PROCESSED) ∧
    (e = some x → b = false → gatingDecider e x b = GatingDecision.NEW) := by
  refine ⟨?_, ?_, ?_, ?_⟩
  · rintro rfl; rfl
  · rintro d rfl hd
    simp [gatingDecider, hd]
  · rintro rfl rfl
    simp [gatingDecider]
  · rintro rfl rfl
    simp [gatingDecider]

/-- Witness for C7 at the four gating scenarios of spec §8. -/
theorem c7_gating_cases_witness :
    gatingDecider (some ⟨2026, 1, 23⟩) ⟨2026, 1, 23⟩ false = GatingDecision.NEW ∧
    gatingDecider (some ⟨2026, 1, 23⟩) ⟨2026, 1, 23⟩ true = GatingDecision.ALREADY_PROCESSED ∧
    gatingDecider (some ⟨2026, 1, 20⟩) ⟨2026, 1, 23⟩ false = GatingDecision.DATE_MISMATCH ∧
    gatingDecider none ⟨2026, 1, 23⟩ false = GatingDecision.DATE_UNKNOWN :=
  ⟨(c7_gating_cases (some ⟨2026, 1, 23⟩) ⟨2026, 1, 23⟩ false).2.2.2 rfl rfl,
   (c7_gating_cases (some ⟨2026, 1, 23⟩) ⟨2026, 1, 23⟩ true).2.2.1 rfl rfl,
   (c7_gating_cases (some ⟨2026, 1, 20⟩) ⟨2026, 1, 23⟩ false).2.1 _ rfl (by decide),
   (c7_gating_cases none ⟨2026, 1, 23⟩ false).1 rfl⟩

/-- The date used in the C8 checks. -/
def c8date : Str := "2026-01-23".toList

/-- C8 counterexample: a PDF on which text extraction raises (`corrupt`)
is not an empty document, yet `parse_cause_list_pdf` silently returns the
empty record sequence for it and `main` ends in the same no-cases outcome
as for a genuinely empty document — the extraction failure is swallowed,
contrary to the claim that only a genuinely empty document yields an empty
sequence. -/
theorem c8_swallowed_failure_counterexample :
    parse_cause_list_pdf PdfFile.corrupt c8date = [] ∧
      PdfFile.corrupt ≠ PdfFile.pages [] ∧
      main_run (some PdfFile.corrupt) c8date = MainOutcome.noCases ∧
      main_run (some (PdfFile.pages [])) c8date = MainOutcome.noCases := by decide

/-- C8 amended: a failed download does propagate — `download_pdf` returns
`None` and `main` aborts with an explicit failure, producing no record
sequence; but a text-extraction failure is converted into empty text and
hence an empty record sequence, indistinguishable from an empty document. -/
theorem c8_download_failure_propagates (d : Str) :
    main_run none d = MainOutcome.downloadFailed ∧
      parse_cause_list_pdf PdfFile.corrupt d = [] ∧
      main_run (some PdfFile.corrupt) d = MainOutcome.noCases :=
  ⟨rfl, rfl, rfl⟩

/-- C9: every continuation line gathered for the case line at index `i`
comes from an index among the at most 9 lines `i+1 … i+9` (and within the
section), is that physical line stripped, and no break condition — a new
case-line anchor or a stage-header underline on the following line — held
at any index up to it: text beyond the window or beyond a break is never
attached. -/
theorem c9_continuation_window (lines : List Str) (i : Nat) (l : Str)
    (h : l ∈ collectCont lines i) :
    ∃ k, i + 1 ≤ k ∧ k < min (i + 10) lines.length ∧
      l = stripL (lines.getD k []) ∧
      ∀ m, i + 1 ≤ m → m ≤ k → stopCond lines m = false := by
  obtain ⟨k, h1, h2, h3, h4⟩ := collectContAux_window lines _ _ l h
  exact ⟨k, h1, by omega, h3, h4⟩

/-- The lines of the C9 witness section. -/
def c9lines : List Str :=
  [("1 WP 10/2024 PET: A RES: B".toList), ("JOHN DOE".toList), ("Adv Kumar".toList)]

/-- Witness for C9 at a concrete continuation line. -/
theorem c9_continuation_window_witness :
    ("JOHN DOE".toList) ∈ collectCont c9lines 0 ∧
      ∃ k, 0 + 1 ≤ k ∧ k < min (0 + 10) c9lines.length ∧
        ("JOHN DOE".toList) = stripL (c9lines.getD k []) ∧
        ∀ m, 0 + 1 ≤ m → m ≤ k → stopCond c9lines m = false :=
  ⟨by decide, c9_continuation_window c9lines 0 _ (by decide)⟩

/-- The C10 input: a hall section whose text states `Cause List No. 0`. -/
def c10text : Str :=
  "COURT HALL NO : 5\nCause List No. 0\n1 WP 10/2024 PET: A RES: B\n".toList

/-- The date used in the C10 record-level check. -/
def c10date : Str := "2026-01-23".toList

/-- C10 counterexample: a hall section stating `Cause List No. 0` yields
the extracted list number `0`, and the emitted record carries `0` — so it
is not true that every emitted record carries a positive integer list
number. -/
theorem c10_zero_list_number_counterexample :
    extract_cause_list_number ("Cause List No. 0".toList) = 0 ∧
      (parse_cause_list_text c10text c10date).map (fun r => r.list_number) = [0] := by decide

/-- C10 amended: for every hall section with no `Cause List No.` match the
extracted number is the default `1` (no error, no absent value); emitted
records always carry a `Nat`, which is positive unless the document itself
states list number `0`. -/
theorem c10_default_list_number (t : Str) (h : findCauseListNo t = none) :
    extract_cause_list_number t = 1 := by
  unfold extract_cause_list_number
  rw [h]
  rfl

/-- Witness for C10 amended at a concrete section without the pattern. -/
theorem c10_default_list_number_witness :
    findCauseListNo ("NO NUMBER HERE".toList) = none ∧
      extract_cause_list_number ("NO NUMBER HERE".toList) = 1 :=
  ⟨by decide, c10_default_list_number _ (by decide)⟩
